import Mathlib

/-!
Verification development for the NAACL 2019 schedule repository.

This file is a shallow embedding of the two Python modules the claims are
about: `code/orderfile.py` (the order-file parser: line classifier,
entity model and the `Agenda.fromfile` state machine) and
`code/metadata.py` (the `ScheduleMetadata` lookup), followed by theorems
about the embedded definitions.

Python strings are modelled as `List Char`; fallible Python code returns
`Except PyError`.  Regular expressions from the source are modelled by
hand-written deterministic matchers that mirror the behaviour of the
concrete patterns (including the one place where each pattern can
backtrack, as noted in the doc comments).
-/

deriving instance DecidableEq for Except

namespace Naacl

/-- Python runtime errors raised by the embedded code.  The constructors
`unrecognizedLineError`, `malformedItemError`, `invalidNestingError` and
`notFoundError` name error classes that appear only in the design
document's error taxonomy; the Python sources never define or raise them,
and they are included so that claims mentioning them can be stated. -/
inductive PyError where
  | valueError
  | assertionError
  | attributeError
  | unboundLocalError
  | indexError
  | keyError
  | unrecognizedLineError
  | malformedItemError
  | invalidNestingError
  | notFoundError
  deriving DecidableEq, Repr

/-- Whitespace characters recognised by Python's `str.strip` (ASCII). -/
def isPySpace (c : Char) : Bool :=
  c == ' ' || c == '\t' || c == '\n' || c == '\r' || c == '\x0b' || c == '\x0c'

/-- Python `str.lstrip()` with no argument: drop leading whitespace. -/
def pyLStrip (s : List Char) : List Char := s.dropWhile isPySpace

/-- Python `str.rstrip()` with no argument: drop trailing whitespace. -/
def pyRStrip (s : List Char) : List Char := (s.reverse.dropWhile isPySpace).reverse

/-- Python `str.strip()` with no argument. -/
def pyStrip (s : List Char) : List Char := pyRStrip (pyLStrip s)

/-- Python `str.lstrip(chars)`: drop leading characters that belong to the
character set `chars` (e.g. `lstrip('* ')` in `Day.fromstring`). -/
def pyLStripSet (chars : List Char) (s : List Char) : List Char :=
  s.dropWhile (fun c => chars.contains c)

/-- Python `str.startswith`. -/
def startsWith : List Char → List Char → Bool
  | [], _ => true
  | _ :: _, [] => false
  | p :: ps, c :: cs => p == c && startsWith ps cs

/-- Boolean substring test; models `re.search` with a literal pattern. -/
def hasSubstr (needle : List Char) : List Char → Bool
  | [] => startsWith needle []
  | c :: cs => startsWith needle (c :: cs) || hasSubstr needle cs

/-- Python `str.lower` (ASCII, which is all the sources need). -/
def pyLower (s : List Char) : List Char := s.map Char.toLower

/-- Python `str.split(sep)` for a one-character separator: splits at every
occurrence and keeps empty parts. -/
def pySplit (sep : Char) : List Char → List (List Char)
  | [] => [[]]
  | c :: cs =>
    if c == sep then [] :: pySplit sep cs
    else
      match pySplit sep cs with
      | [] => [[c]]
      | h :: t => (c :: h) :: t

/-- Python `sep.join(parts)`. -/
def pyJoin (sep : List Char) : List (List Char) → List Char
  | [] => []
  | [x] => x
  | x :: xs => x ++ sep ++ pyJoin sep xs

/-! ### The metadata-blob parser (`parse_metadata_into_dict`) -/

/-- One attempted match of `_METADATA_REGEXP = %([^\s]+)\s+([^%]+)` at the
head of `s`.  On success, returns the two captured groups and the remainder
of the string after the match.  The only backtracking the pattern can need
is `\s+` giving its final whitespace character back to `[^%]+` when the
value would otherwise be empty. -/
def matchMetaAt (s : List Char) : Option ((List Char × List Char) × List Char) :=
  match s with
  | '%' :: rest =>
    let key := rest.takeWhile (fun c => !isPySpace c)
    let r1 := rest.dropWhile (fun c => !isPySpace c)
    if key.isEmpty then none
    else
      let ws := r1.takeWhile isPySpace
      let r2 := r1.dropWhile isPySpace
      if ws.isEmpty then none
      else
        let val := r2.takeWhile (fun c => c != '%')
        let r3 := r2.dropWhile (fun c => c != '%')
        if val.isEmpty then
          if ws.length ≥ 2 then some ((key, [ws.getLastD ' ']), r2) else none
        else some ((key, val), r3)
  | _ => none

/-- `re.findall` with `_METADATA_REGEXP`: scan left to right, take
non-overlapping matches, and advance one character past positions where no
match starts.  The fuel argument (always instantiated with the length of
the string) serves only termination; every step consumes at least one
character, so the fuel never runs out before the string does. -/
def metadataScan : Nat → List Char → List (List Char × List Char)
  | 0, _ => []
  | _, [] => []
  | fuel + 1, c :: cs =>
    match matchMetaAt (c :: cs) with
    | some (kv, rest) => kv :: metadataScan fuel rest
    | none => metadataScan fuel cs

/-- `parse_metadata_into_dict` from `orderfile.py`: strip the string, run
`_METADATA_REGEXP.findall` over it and build a dict from the pairs.  The
dict is modelled as the association list of the matches; as with Python's
`dict(pairs)`, a later binding of the same key wins, which is what
`pyDictLookup` implements. -/
def parse_metadata_into_dict (metadata_string : List Char) : List (List Char × List Char) :=
  let t := pyStrip metadata_string
  metadataScan t.length t

/-- Lookup in a Python dict built from an association list of pairs: the
last binding of a key wins. -/
def pyDictLookup {α : Type} (d : List (List Char × α)) (k : List Char) : Option α :=
  (d.reverse.find? (fun p => p.1 == k)).map (fun p => p.2)

/-- Python `dict.get(key, default)` for string-valued dicts. -/
def pyDictGet (d : List (List Char × List Char)) (k dflt : List Char) : List Char :=
  (pyDictLookup d k).getD dflt

/-! ### Regex models for the line sub-parsers -/

/-- Lowercase ASCII letter, the `[a-z]` class of `Item._regexp`. -/
def isLowerAZ (c : Char) : Bool := 'a' ≤ c && c ≤ 'z'

/-- Match `[0-9]{1,2}:[0-9]{2}` at the head of `s`, returning the matched
text and the rest.  When two leading digits are present the `{1,2}`
quantifier can never usefully backtrack to one digit, because the second
digit would then have to equal `:`. -/
def matchTime : List Char → Option (List Char × List Char)
  | a :: b :: rest =>
    if a.isDigit && b.isDigit then
      match rest with
      | ':' :: c :: d :: rest2 =>
        if c.isDigit && d.isDigit then some ([a, b, ':', c, d], rest2) else none
      | _ => none
    else if a.isDigit && b == ':' then
      match rest with
      | c :: d :: rest2 =>
        if c.isDigit && d.isDigit then some ([a, b, c, d], rest2) else none
      | _ => none
    else none
  | _ => none

/-- Match `[0-9]{1,2}:[0-9]{2}--[0-9]{1,2}:[0-9]{2}`, the time-range shape
shared by the session, session-group and item patterns. -/
def matchTimeRange (s : List Char) : Option (List Char × List Char × List Char) :=
  match matchTime s with
  | some (t1, rest) =>
    match rest with
    | '-' :: '-' :: rest2 =>
      match matchTime rest2 with
      | some (t2, rest3) => some (t1, t2, rest3)
      | none => none
    | _ => none
  | none => none

/-- The fields of an `Item._regexp` match object that `Item.fromstring`
consumes: group 1 (the id), groups 4 and 5 (the optional time range) and
group 6 (the metadata text after `#`). -/
structure ItemMatchT where
  item_id : List Char
  times : Option (List Char × List Char)
  metadata : List Char
  deriving DecidableEq, Repr

/-- Match the tail `(\s*TIME--TIME)?\s+#([^#]*)$` of `Item._regexp` against
the text after group 1.  If the optional time-range group matches, the
following `\s+` must be non-empty; if it does not match, the whitespace the
`\s*` would have taken is exactly the `\s+`.  In both cases the text after
`#` must itself be free of `#` for the anchored `([^#]*)$` to succeed, and
a time range that matched but is not followed by `\s+#` cannot be rescued
by dropping the optional group, because the line would then have to
continue with `#` at a digit. -/
def itemTail (rest : List Char) : Option (Option (List Char × List Char) × List Char) :=
  let ws := rest.takeWhile isPySpace
  let r3 := rest.dropWhile isPySpace
  match matchTimeRange r3 with
  | some (t1, t2, r4) =>
    let ws2 := r4.takeWhile isPySpace
    let r5 := r4.dropWhile isPySpace
    if ws2.isEmpty then none
    else
      match r5 with
      | '#' :: meta => if meta.contains '#' then none else some (some (t1, t2), meta)
      | _ => none
  | none =>
    if ws.isEmpty then none
    else
      match r3 with
      | '#' :: meta => if meta.contains '#' then none else some (none, meta)
      | _ => none

/-- Try `Item._regexp` with group 1 taking the digit run `dsRev.reverse`
(plus an optional lowercase `-suffix`), and, when the rest of the pattern
fails, backtrack `[0-9]+` one digit at a time exactly as the regex engine
does (a shorter digit prefix can still succeed when the remaining digits
begin a time range). -/
def itemTryDigits : List Char → List Char → Option ItemMatchT
  | [], _ => none
  | d :: dsRev, rest =>
    let ds := (d :: dsRev).reverse
    let attempt : Option ItemMatchT :=
      match rest with
      | '-' :: more =>
        let letters := more.takeWhile isLowerAZ
        let r := more.dropWhile isLowerAZ
        if letters.isEmpty then
          match itemTail rest with
          | some (times, meta) => some ⟨ds, times, meta⟩
          | none => none
        else
          match itemTail r with
          | some (times, meta) => some ⟨ds ++ '-' :: letters, times, meta⟩
          | none => none
      | _ =>
        match itemTail rest with
        | some (times, meta) => some ⟨ds, times, meta⟩
        | none => none
    match attempt with
    | some m => some m
    | none => itemTryDigits dsRev (d :: rest)

/-- `Item._regexp.match(line)` where `Item._regexp` is
`^([0-9]+(-[a-z]+)?)(\s*([0-9]{1,2}:[0-9]{2})--([0-9]{1,2}:[0-9]{2}))?\s+#([^#]*)$`. -/
def itemMatch (s : List Char) : Option ItemMatchT :=
  let ds := s.takeWhile Char.isDigit
  let rest := s.dropWhile Char.isDigit
  if ds.isEmpty then none else itemTryDigits ds.reverse rest

/-- Match the regex tail `#?([^#]+)?$` shared by the session patterns:
either the string ends here, or a `#` follows and the (optional) metadata
group takes the non-empty remainder, which must contain no further `#`. -/
def hashTail : List Char → Option (Option (List Char))
  | [] => some none
  | '#' :: m =>
    if m.isEmpty then some none
    else if m.contains '#' then none
    else some (some m)
  | _ => none

/-- Match the common regex tail `([^#]+)#?([^#]+)?$` of the session
patterns, returning the title group and the optional metadata group. -/
def tailTitleMeta (s : List Char) : Option (List Char × Option (List Char)) :=
  let title := s.takeWhile (fun c => c != '#')
  let r := s.dropWhile (fun c => c != '#')
  if title.isEmpty then none
  else (hashTail r).map (fun m => (title, m))

/-- `Session._plenary_regexp.match`:
`! ([0-9]{1,2}:[0-9]{2})--([0-9]{1,2}:[0-9]{2})\s+([^#]+)#?([^#]+)?$`.
When the text between `\s+` and the next `#` (or the end) is empty, the
greedy `\s+` backtracks by one character and `([^#]+)` captures that single
whitespace character, which requires the whitespace run to have length at
least two. -/
def plenaryMatch (s : List Char) :
    Option (List Char × List Char × List Char × Option (List Char)) :=
  match s with
  | '!' :: ' ' :: rest =>
    match matchTimeRange rest with
    | some (t1, t2, r) =>
      let ws := r.takeWhile isPySpace
      let r2 := r.dropWhile isPySpace
      if ws.isEmpty then none
      else
        let title := r2.takeWhile (fun c => c != '#')
        let r3 := r2.dropWhile (fun c => c != '#')
        if title.isEmpty then
          if ws.length ≥ 2 then
            match hashTail r2 with
            | some meta => some (t1, t2, [ws.getLastD ' '], meta)
            | none => none
          else none
        else
          match hashTail r3 with
          | some meta => some (t1, t2, title, meta)
          | none => none
    | none => none
  | _ => none

/-- `Session._paper_regexp.match`: `= Session ([^:]+): ([^#]+)#?([^#]+)?$`. -/
def paperSessionMatch (s : List Char) :
    Option (List Char × List Char × Option (List Char)) :=
  if startsWith "= Session ".data s then
    let rest := s.drop 10
    let id_ := rest.takeWhile (fun c => c != ':')
    let r := rest.dropWhile (fun c => c != ':')
    if id_.isEmpty then none
    else
      match r with
      | ':' :: ' ' :: r2 =>
        match tailTitleMeta r2 with
        | some (title, meta) => some (id_, title, meta)
        | none => none
      | _ => none
  else none

/-- `Session._non_paper_regexp.match`: `= ([^#]+)#?([^#]+)?$`. -/
def nonPaperMatch (s : List Char) : Option (List Char × Option (List Char)) :=
  match s with
  | '=' :: ' ' :: rest => tailTitleMeta rest
  | _ => none

/-- `SessionGroup._regexp.match` (applied after `lstrip('+ ')`):
`([0-9]{1,2}:[0-9]{2})--([0-9]{1,2}:[0-9]{2})\s+(.*)`. -/
def sessionGroupMatch (s : List Char) : Option (List Char × List Char × List Char) :=
  match matchTimeRange s with
  | some (t1, t2, r) =>
    let ws := r.takeWhile isPySpace
    let r2 := r.dropWhile isPySpace
    if ws.isEmpty then none else some (t1, t2, r2)
  | none => none

/-! ### `datetime.strptime` with format `%A, %B %d, %Y` -/

/-- The lowercase full weekday names `strptime` accepts for `%A`. -/
def weekdayNames : List (List Char) :=
  ["monday", "tuesday", "wednesday", "thursday", "friday",
   "saturday", "sunday"].map String.data

/-- The lowercase full month names `strptime` accepts for `%B`. -/
def monthNames : List (List Char) :=
  ["january", "february", "march", "april", "may", "june", "july",
   "august", "september", "october", "november", "december"].map String.data

/-- Case-insensitively match one of `names` at the head of `s`, returning
the index (counting from `i`) of the name matched and the rest of the
string.  None of the weekday or month names is a proper prefix of another,
so first-match order is the same as the longest-first alternation CPython
compiles. -/
def matchNameCI : List (List Char) → Nat → List Char → Option (Nat × List Char)
  | [], _, _ => none
  | n :: ns, i, s =>
    if startsWith n (pyLower s) then some (i, s.drop n.length)
    else matchNameCI ns (i + 1) s

/-- The `%d` directive of `strptime`: CPython compiles it to the regex
`3[01]|[12]\d|0[1-9]|[1-9]`, tried in that order. -/
def matchDayNum : List Char → Option (Nat × List Char)
  | '3' :: '0' :: r => some (30, r)
  | '3' :: '1' :: r => some (31, r)
  | c :: r =>
    match r with
    | d :: r2 =>
      if (c == '1' || c == '2') && d.isDigit then
        some ((c.toNat - '0'.toNat) * 10 + (d.toNat - '0'.toNat), r2)
      else if c == '0' && ('1' ≤ d && d ≤ '9') then some (d.toNat - '0'.toNat, r2)
      else if '1' ≤ c && c ≤ '9' then some (c.toNat - '0'.toNat, r)
      else none
    | [] => if '1' ≤ c && c ≤ '9' then some (c.toNat - '0'.toNat, []) else none
  | [] => none

/-- Gregorian leap-year rule, as used by `datetime`'s validation. -/
def isLeapYear (y : Nat) : Bool := y % 4 == 0 && (y % 100 != 0 || y % 400 == 0)

/-- Number of days of month `m` in year `y`. -/
def daysInMonth (y m : Nat) : Nat :=
  if m == 2 then (if isLeapYear y then 29 else 28)
  else if m == 4 || m == 6 || m == 9 || m == 11 then 30
  else 31

/-- Numeric value of an ASCII digit. -/
def digitVal (c : Char) : Nat := c.toNat - '0'.toNat

/-- `datetime.strptime(s, "%A, %B %d, %Y")` as used by `Day.fromstring`:
a weekday name, a literal comma, whitespace, a month name, whitespace, a
day of month, a literal comma, whitespace and a four-digit year, matched
case-insensitively and consuming the whole string (whitespace in the
format matches one or more whitespace characters), followed by
`datetime`'s calendar validation of the day.  Returns `(year, month, day)`;
`none` models the `ValueError` Python raises. -/
def strptimeDay (s : List Char) : Option (Nat × Nat × Nat) :=
  match matchNameCI weekdayNames 1 s with
  | none => none
  | some (_, r1) =>
    match r1 with
    | ',' :: r2 =>
      if (r2.takeWhile isPySpace).isEmpty then none
      else
        let r3 := r2.dropWhile isPySpace
        match matchNameCI monthNames 1 r3 with
        | none => none
        | some (m, r4) =>
          if (r4.takeWhile isPySpace).isEmpty then none
          else
            let r5 := r4.dropWhile isPySpace
            match matchDayNum r5 with
            | none => none
            | some (d, r6) =>
              match r6 with
              | ',' :: r7 =>
                if (r7.takeWhile isPySpace).isEmpty then none
                else
                  let r8 := r7.dropWhile isPySpace
                  match r8 with
                  | a :: b :: c :: e :: r9 =>
                    if a.isDigit && b.isDigit && c.isDigit && e.isDigit && r9.isEmpty then
                      let y := ((digitVal a * 10 + digitVal b) * 10 + digitVal c) * 10
                        + digitVal e
                      if 1 ≤ y ∧ d ≤ daysInMonth y m then some (y, m, d) else none
                    else none
                  | _ => none
              | _ => none
    | _ => none

/-! ### The entity model (`Item`, `Session`, `SessionGroup`, `Day`) -/

/-- A presentation item (`Item` in `orderfile.py`).  The Python object is
an attribute bag created with keyword arguments that differ per item type,
so a field is `none` when the corresponding attribute was never set.  The
`topic`, `start` and `end` attributes can additionally hold the Python
value `None` (the topic through the assignment in the parse loop, the
times through the optional regex groups), hence the doubled `Option`. -/
structure Item where
  id_ : List Char
  type : List Char
  topic : Option (Option (List Char))
  title : Option (List Char)
  authors : Option (List Char)
  track : Option (List Char)
  location : Option (List Char)
  start : Option (Option (List Char))
  end_ : Option (Option (List Char))
  deriving DecidableEq, Repr

/-- A session (`Session` in `orderfile.py`); `type` holds one of the
literal strings `"plenary"`, `"break"`, `"paper"`, `"poster"`,
`"tutorial"`, `"best_paper"` exactly as the Python code stores them. -/
structure Session where
  id_ : List Char
  title : List Char
  type : List Char
  location : List Char
  chair : List Char
  start : List Char
  end_ : List Char
  items : List Item
  deriving DecidableEq, Repr

/-- A parallel-track session group (`SessionGroup` in `orderfile.py`). -/
structure SessionGroup where
  title : List Char
  start : List Char
  end_ : List Char
  sessions : List Session
  deriving DecidableEq, Repr

/-- An element of `Day.contents`: `Day.add` appends both `Session` and
`SessionGroup` objects to the same list. -/
inductive DayContent where
  | session (s : Session)
  | group (g : SessionGroup)
  deriving DecidableEq, Repr

/-- A day (`Day` in `orderfile.py`); the `datetime` attribute is modelled
by the `(year, month, day)` triple `strptime` produces. -/
structure Day where
  datetime : Nat × Nat × Nat
  contents : List DayContent
  deriving DecidableEq, Repr

/-- `Day.fromstring`: strip the `* ` sigil characters and trailing
whitespace, then parse the date with `strptime` (whose failure is a
`ValueError`). -/
def Day.fromstring (day_string : List Char) : Except PyError Day :=
  let real := pyRStrip (pyLStripSet ['*', ' '] day_string)
  match strptimeDay real with
  | some ymd => .ok { datetime := ymd, contents := [] }
  | none => .error .valueError

/-- `SessionGroup.fromstring`: strip the `+ ` sigil characters and match
`SessionGroup._regexp`; a failed match is the `AttributeError` Python
raises by calling `.groups()` on `None`. -/
def SessionGroup.fromstring (session_group_string : List Char) :
    Except PyError SessionGroup :=
  let real := pyLStripSet ['+', ' '] session_group_string
  match sessionGroupMatch real with
  | none => .error .attributeError
  | some (start, end_, title) =>
    .ok { title := pyStrip title, start := pyStrip start, end_ := pyStrip end_,
          sessions := [] }

/-- `Session.fromstring`: dispatch on the leading sigil, match the
corresponding regex (a failed match is an `AttributeError`), classify the
session type by the keyword heuristics, and build the `Session`.  A string
starting with neither `!` nor `=` falls off the end of the Python function
and yields `None`. -/
def Session.fromstring (session_string : List Char) : Except PyError (Option Session) :=
  if startsWith "!".data session_string then
    match plenaryMatch session_string with
    | none => .error .attributeError
    | some (start, end_, title, metadata) =>
      let md := match metadata with
        | some m => parse_metadata_into_dict m
        | none => []
      let lt := pyLower title
      let session_type :=
        if hasSubstr "break".data lt || hasSubstr "lunch".data lt ||
            hasSubstr "coffee".data lt then "break".data else "plenary".data
      .ok (some { id_ := [], title := pyStrip title, type := session_type,
                  location := pyStrip (pyDictGet md "room".data []),
                  chair := pyStrip (pyDictGet md "chair1".data []),
                  start := pyStrip start, end_ := pyStrip end_, items := [] })
  else if startsWith "=".data session_string then
    if startsWith "= Session".data session_string then
      match paperSessionMatch session_string with
      | none => .error .attributeError
      | some (id_, title, metadata) =>
        let md := match metadata with
          | some m => parse_metadata_into_dict m
          | none => []
        let session_type :=
          if hasSubstr "posters".data (pyLower title) then "poster".data
          else "paper".data
        .ok (some { id_ := pyStrip id_, title := pyStrip title, type := session_type,
                    location := pyStrip (pyDictGet md "room".data []),
                    chair := pyStrip (pyDictGet md "chair1".data []),
                    start := [], end_ := [], items := [] })
    else
      match nonPaperMatch session_string with
      | none => .error .attributeError
      | some (title, metadata) =>
        let md := match metadata with
          | some m => parse_metadata_into_dict m
          | none => []
        let session_type :=
          if hasSubstr "tutorial".data (pyLower title) then "tutorial".data
          else "best_paper".data
        .ok (some { id_ := [], title := pyStrip title, type := session_type,
                    location := pyStrip (pyDictGet md "room".data []),
                    chair := [], start := [], end_ := [], items := [] })
  else .ok none

/-- `Item.fromstring`, dispatching on the type of the containing session.
The poster branch sets `topic`/`title`/`track`/`authors` only; the paper
branch splits a dashed id into id and track (`str.split('-')` unpacking to
two names raises `ValueError` unless the split has exactly two parts); the
tutorial branch splits unconditionally (so an id without `-` raises
`ValueError`) and then asserts the suffix is `tutorial` (`AssertionError`
otherwise).  A plenary or break containing type falls off the end of the
Python function and yields `None`. -/
def Item.fromstring (m : ItemMatchT) (containing_session_type : List Char) :
    Except PyError (Option Item) :=
  let start_time : Option (List Char) := m.times.map (fun t => t.1)
  let end_time : Option (List Char) := m.times.map (fun t => t.2)
  if containing_session_type = "poster".data then
    .ok (some { id_ := m.item_id, type := "poster".data, topic := some (some []),
                title := some [], authors := some [], track := some "main".data,
                location := none, start := none, end_ := none })
  else if containing_session_type = "paper".data ∨
      containing_session_type = "best_paper".data then
    if m.item_id.contains '-' then
      match pySplit '-' m.item_id with
      | [real_id, id_type] =>
        .ok (some { id_ := real_id, type := "paper".data, topic := none,
                    title := some [], authors := some [], track := some id_type,
                    location := none, start := some start_time, end_ := some end_time })
      | _ => .error .valueError
    else
      .ok (some { id_ := m.item_id, type := "paper".data, topic := none,
                  title := some [], authors := some [], track := some "main".data,
                  location := none, start := some start_time, end_ := some end_time })
  else if containing_session_type = "tutorial".data then
    match pySplit '-' m.item_id with
    | [real_id, id_type] =>
      let md := parse_metadata_into_dict m.metadata
      if id_type = "tutorial".data then
        .ok (some { id_ := real_id, type := "tutorial".data, topic := none,
                    title := some [], authors := some [], track := some "main".data,
                    location := some (pyStrip (pyDictGet md "room".data [])),
                    start := some start_time, end_ := some end_time })
      else .error .assertionError
    | _ => .error .valueError
  else .ok none

/-! ### The `Agenda` builder state machine -/

/-- The mutable state of the `Agenda.fromfile` loop: the list of days
already appended to the agenda (`update_states` appends `current_day`
unconditionally, so a `None` day can be appended), the four current
pointers, and the `current_poster_topic` local variable.  The outer
`Option` of `posterTopic` records whether the variable has been assigned
at all (reading it before the first `@ ` line raises
`UnboundLocalError`); the inner `Option` is its Python value, which is
`None` after a topic has been consumed. -/
structure ParseState where
  agendaDays : List (Option Day)
  currentDay : Option Day
  currentGroup : Option SessionGroup
  currentSession : Option Session
  currentItem : Option Item
  posterTopic : Option (Option (List Char))
  deriving DecidableEq, Repr

/-- The final block of `Agenda.update_states`: under `save_day`, append
the (possibly `None`) current day to the agenda's day list, then return
the new day list and the current pointers. -/
def Agenda.commit_day (days : List (Option Day)) (day3 : Option Day)
    (group2 : Option SessionGroup) (cs : Option Session) (current_item : Option Item)
    (save_day : Bool) :
    Except PyError
      (List (Option Day) × Option Day × Option SessionGroup × Option Session × Option Item) :=
  .ok ((if save_day then days ++ [day3] else days), day3, group2, cs, current_item)

/-- The middle block of `Agenda.update_states`: under `save_group`, append
the open session group (if any) to the open day (`AttributeError` when the
day is `None`), then run the final block. -/
def Agenda.commit_group (days : List (Option Day)) (day2 : Option Day)
    (group2 : Option SessionGroup) (cs : Option Session) (current_item : Option Item)
    (save_group save_day : Bool) :
    Except PyError
      (List (Option Day) × Option Day × Option SessionGroup × Option Session × Option Item) :=
  if save_group then
    match group2 with
    | some g =>
      match day2 with
      | some d =>
        Agenda.commit_day days
          (some { d with contents := d.contents ++ [DayContent.group g] })
          group2 cs current_item save_day
      | none => .error .attributeError
    | none => Agenda.commit_day days day2 group2 cs current_item save_day
  else Agenda.commit_day days day2 group2 cs current_item save_day

/-- `Agenda.update_states`: always flush the current item into the current
session; then, under `save_session`, append the session to the open group
(unless its type is plenary or break) or else to the open day (the first
`if` block of the method); the `save_group` and `save_day` blocks are the
two commit helpers above.  Appending to a `None` day is the
`AttributeError` Python raises on `None.add`.  Returns the new agenda day
list and the four (possibly updated) current pointers. -/
def Agenda.update_states (days : List (Option Day)) (current_day : Option Day)
    (current_session_group : Option SessionGroup) (current_session : Option Session)
    (current_item : Option Item) (save_session save_group save_day : Bool) :
    Except PyError
      (List (Option Day) × Option Day × Option SessionGroup × Option Session × Option Item) :=
  let cs : Option Session :=
    match current_item, current_session with
    | some it, some s => some { s with items := s.items ++ [it] }
    | _, _ => current_session
  if save_session then
    match cs with
    | some s =>
      match current_session_group with
      | some g =>
        if s.type = "plenary".data ∨ s.type = "break".data then
          match current_day with
          | some d =>
            Agenda.commit_group days
              (some { d with contents := d.contents ++ [DayContent.session s] })
              (some g) cs current_item save_group save_day
          | none => .error .attributeError
        else
          Agenda.commit_group days current_day
            (some { g with sessions := g.sessions ++ [s] }) cs current_item
            save_group save_day
      | none =>
        match current_day with
        | some d =>
          Agenda.commit_group days
            (some { d with contents := d.contents ++ [DayContent.session s] })
            none cs current_item save_group save_day
        | none => .error .attributeError
    | none =>
      Agenda.commit_group days current_day current_session_group cs current_item
        save_group save_day
  else
    Agenda.commit_group days current_day current_session_group cs current_item
      save_group save_day

/-- One iteration of the `Agenda.fromfile` loop on an already stripped,
non-empty line: the `if`/`elif` chain over the five sigils and the item
pattern, in source order.  A line matching none of them falls off the end
of the chain and leaves the state unchanged. -/
def Agenda.processStripped (st : ParseState) (line : List Char) :
    Except PyError ParseState :=
  if startsWith "* ".data line then
    let upd : Except PyError (List (Option Day)) :=
      match st.currentDay with
      | some _ =>
        match Agenda.update_states st.agendaDays st.currentDay st.currentGroup
            st.currentSession st.currentItem true true true with
        | .error e => .error e
        | .ok (days', _, _, _, _) => .ok days'
      | none => .ok st.agendaDays
    match upd with
    | .error e => .error e
    | .ok days' =>
      match Day.fromstring line with
      | .error e => .error e
      | .ok d =>
        .ok { agendaDays := days', currentDay := some d, currentGroup := none,
              currentSession := none, currentItem := none,
              posterTopic := st.posterTopic }
  else if startsWith "! ".data line then
    match Agenda.update_states st.agendaDays st.currentDay st.currentGroup
        st.currentSession st.currentItem true true false with
    | .error e => .error e
    | .ok (days', day', _, _, _) =>
      match Session.fromstring line with
      | .error e => .error e
      | .ok s? =>
        .ok { agendaDays := days', currentDay := day', currentGroup := none,
              currentSession := s?, currentItem := none,
              posterTopic := st.posterTopic }
  else if startsWith "+ ".data line then
    match Agenda.update_states st.agendaDays st.currentDay st.currentGroup
        st.currentSession st.currentItem true true false with
    | .error e => .error e
    | .ok (days', day', _, _, _) =>
      match SessionGroup.fromstring line with
      | .error e => .error e
      | .ok g =>
        .ok { agendaDays := days', currentDay := day', currentGroup := some g,
              currentSession := none, currentItem := none,
              posterTopic := st.posterTopic }
  else if startsWith "= ".data line then
    match Agenda.update_states st.agendaDays st.currentDay st.currentGroup
        st.currentSession st.currentItem true false false with
    | .error e => .error e
    | .ok (days', day', group', _, _) =>
      match Session.fromstring line with
      | .error e => .error e
      | .ok s? =>
        .ok { agendaDays := days', currentDay := day', currentGroup := group',
              currentSession := s?, currentItem := none,
              posterTopic := st.posterTopic }
  else if startsWith "@ ".data line then
    match Agenda.update_states st.agendaDays st.currentDay st.currentGroup
        st.currentSession st.currentItem false false false with
    | .error e => .error e
    | .ok (days', day', group', session', _) =>
      .ok { agendaDays := days', currentDay := day', currentGroup := group',
            currentSession := session', currentItem := none,
            posterTopic := some (some (pyRStrip (pyLStripSet ['@', ' '] line))) }
  else
    match itemMatch line with
    | none => .ok st
    | some m =>
      let attach : Except PyError (Option Item × Option (Option (List Char))) :=
        match st.currentItem with
        | some it =>
          if it.type = "poster".data then
            match st.posterTopic with
            | none => .error .unboundLocalError
            | some v => .ok (some { it with topic := some v }, some none)
          else .ok (st.currentItem, st.posterTopic)
        | none => .ok (st.currentItem, st.posterTopic)
      match attach with
      | .error e => .error e
      | .ok (item', topic') =>
        match Agenda.update_states st.agendaDays st.currentDay st.currentGroup
            st.currentSession item' false false false with
        | .error e => .error e
        | .ok (days', day', group', session', _) =>
          match session' with
          | none => .error .attributeError
          | some s =>
            match Item.fromstring m s.type with
            | .error e => .error e
            | .ok newIt? =>
              .ok { agendaDays := days', currentDay := day', currentGroup := group',
                    currentSession := session', currentItem := newIt?,
                    posterTopic := topic' }

/-- One line of `Agenda.fromfile`: strip it, skip it when empty, otherwise
run the `if`/`elif` chain. -/
def Agenda.processLine (st : ParseState) (l : List Char) : Except PyError ParseState :=
  let line := pyStrip l
  if line = [] then .ok st else Agenda.processStripped st line

/-- Fold `Agenda.processLine` over the lines of the file. -/
def Agenda.processLines : ParseState → List (List Char) → Except PyError ParseState
  | st, [] => .ok st
  | st, l :: ls =>
    match Agenda.processLine st l with
    | .error e => .error e
    | .ok st' => Agenda.processLines st' ls

/-- The initial state of `Agenda.fromfile`: all current pointers are
`None`, no day has been appended, and `current_poster_topic` is unbound. -/
def Agenda.initState : ParseState := ⟨[], none, none, none, none, none⟩

/-- `Agenda.fromfile`, with the file replaced by its list of raw lines
(the method itself only reads lines from the path it is given): run the
loop and then the final unconditional `update_states`, returning the
agenda's day list. -/
def Agenda.fromfile (lines : List (List Char)) : Except PyError (List (Option Day)) :=
  match Agenda.processLines Agenda.initState lines with
  | .error e => .error e
  | .ok st =>
    match Agenda.update_states st.agendaDays st.currentDay st.currentGroup
        st.currentSession st.currentItem true true true with
    | .error e => .error e
    | .ok (days', _, _, _, _) => .ok days'

/-! ### `metadata.py`: `MetadataTuple` and `ScheduleMetadata` -/

/-- The `MetadataTuple` named tuple of `metadata.py`. -/
structure MetadataTuple where
  title : List Char
  authors : List Char
  abstract : List Char
  anthology_url : List Char
  deriving DecidableEq, Repr

/-- The author string built for one `<paper>` entry by
`ScheduleMetadata._parse_anthology_xml`, as a function of the list of
`(first, last)` author-tag texts extracted from the XML (the XML reading
itself is the external BeautifulSoup library).  When at least one author
tag exists the code formats `'{} {}'` per author and then applies
`'{} and {}'.format(', '.join(authorlist[:-1]), authorlist[-1])`
unconditionally. -/
def authorsFromTags (tags : List (List Char × List Char)) : List Char :=
  if tags.isEmpty then []
  else
    let authorlist := tags.map (fun a => a.1 ++ ' ' :: a.2)
    pyJoin ", ".data authorlist.dropLast ++ " and ".data ++ (authorlist.getLast?).getD []

/-- The `MetadataTuple` stored by `_parse_anthology_xml` for one `<paper>`
entry with the given title, abstract, url and author tags. -/
def paperMetadataTuple (title abstract anthology_url : List Char)
    (tags : List (List Char × List Char)) : MetadataTuple :=
  { title := title, authors := authorsFromTags tags, abstract := abstract,
    anthology_url := anthology_url }

/-- The `ScheduleMetadata` object: the dict from order-file ids to
metadata tuples and the dict from order-file ids to anthology ids, both
modelled as association lists (later bindings win, see `pyDictLookup`). -/
structure ScheduleMetadata where
  order_id_to_metadata : List (List Char × MetadataTuple)
  order_id_to_anthology_id : List (List Char × List Char)
  deriving DecidableEq, Repr

/-- The reversed dict `{v: k for k, v in mapping_dict.items()}` built by
`ScheduleMetadata.__init__`. -/
def ScheduleMetadata.anthology_id_to_order_id (sm : ScheduleMetadata) :
    List (List Char × List Char) :=
  sm.order_id_to_anthology_id.map (fun p => (p.2, p.1))

/-- `ScheduleMetadata.__getitem__`: an id whose first character is `N`,
`W` or `S` is treated as an anthology id and first translated through the
reversed mapping dict; then the (possibly translated) order id is looked
up in the metadata dict.  A missing key in either dict is the `KeyError`
of Python's `dict[...]`; an empty id makes `id_[0]` raise `IndexError`. -/
def ScheduleMetadata.getitem (sm : ScheduleMetadata) (id_ : List Char) :
    Except PyError MetadataTuple :=
  match id_ with
  | [] => .error .indexError
  | c :: _ =>
    let step : Except PyError (List Char) :=
      if c = 'N' ∨ c = 'W' ∨ c = 'S' then
        match pyDictLookup sm.anthology_id_to_order_id id_ with
        | some oid => .ok oid
        | none => .error .keyError
      else .ok id_
    match step with
    | .error e => .error e
    | .ok oid =>
      match pyDictLookup sm.order_id_to_metadata oid with
      | some v => .ok v
      | none => .error .keyError

/-! ### Derived predicates and projections used by the theorems -/

/-- Whether a session's type is plenary or break. -/
def Session.isPB (s : Session) : Bool :=
  s.type == "plenary".data || s.type == "break".data

/-- A session group none of whose sessions is plenary or break. -/
def groupFree (g : SessionGroup) : Bool := g.sessions.all (fun s => !s.isPB)

/-- A day content that is either a session or a plenary/break-free group. -/
def contentFree : DayContent → Bool
  | .session _ => true
  | .group g => groupFree g

/-- A day all of whose groups are plenary/break-free. -/
def dayFree (d : Day) : Bool := d.contents.all contentFree

/-- `dayFree` lifted to the possibly-`None` days of the agenda list. -/
def optDayFree : Option Day → Bool
  | none => true
  | some d => dayFree d

/-- `groupFree` lifted to the possibly-open current group. -/
def optGroupFree : Option SessionGroup → Bool
  | none => true
  | some g => groupFree g

/-- The invariant maintained by the builder: every group already committed
(inside the agenda day list or the open day) and the open group contain no
plenary/break session. -/
def stateFree (st : ParseState) : Bool :=
  st.agendaDays.all optDayFree && optDayFree st.currentDay &&
    optGroupFree st.currentGroup

/-- All items of one day content, in order. -/
def itemsOfContent : DayContent → List Item
  | .session s => s.items
  | .group g => g.sessions.foldr (fun s acc => s.items ++ acc) []

/-- All items of a parsed agenda, in order. -/
def itemsOfDays (days : List (Option Day)) : List Item :=
  days.foldr
    (fun d acc =>
      (match d with
       | some dd => dd.contents.foldr (fun c a => itemsOfContent c ++ a) []
       | none => []) ++ acc) []

/-- Extract the state from an `ok` result, with the initial state as the
(unused) fallback; used by witnesses to name the result of a concrete
`processStripped` call. -/
def exceptStateD (e : Except PyError ParseState) : ParseState :=
  match e with
  | .ok s => s
  | .error _ => Agenda.initState

/-- Extract the day list from an `ok` result of `Agenda.fromfile`, with
`[]` as the (unused) fallback. -/
def exceptDaysD (e : Except PyError (List (Option Day))) : List (Option Day) :=
  match e with
  | .ok d => d
  | .error _ => []

/-! ### Concrete order files and states used by individual claims -/

/-- An order file with a poster-topic marker immediately before the last
item of the file: the next (and only) poster after the marker. -/
def topicLastLines : List (List Char) :=
  ["* Monday, June 3, 2019", "= Session 1A: Posters", "@ T", "501 #"].map String.data

/-- The agenda parsed from `topicLastLines`: the poster keeps the empty
topic it was created with, because the topic of the pending slot is only
written when a subsequent item line is processed. -/
def topicLastParsed : List (Option Day) :=
  [some { datetime := (2019, 6, 3),
          contents := [DayContent.session
            { id_ := "1A".data, title := "Posters".data, type := "poster".data,
              location := [], chair := [], start := [], end_ := [],
              items := [{ id_ := "501".data, type := "poster".data,
                          topic := some (some []), title := some [],
                          authors := some [], track := some "main".data,
                          location := none, start := none, end_ := none }] }] }]

/-- A builder state with an open day, an open paper session with no items
yet, and an open paper item, about to process another item line. -/
def openItemState : ParseState :=
  { agendaDays := [],
    currentDay := some { datetime := (2019, 6, 3), contents := [] },
    currentGroup := none,
    currentSession := some { id_ := "1A".data, title := "Speech".data,
                             type := "paper".data, location := [], chair := [],
                             start := [], end_ := [], items := [] },
    currentItem := some { id_ := "7".data, type := "paper".data, topic := none,
                          title := some [], authors := some [],
                          track := some "main".data, location := none,
                          start := some none, end_ := some none },
    posterTopic := none }

/-- The state `openItemState` reaches after the item line `502 #`: the
open item has been flushed into the open session, and the new item `502`
is current. -/
def openItemStateAfter : ParseState :=
  { agendaDays := [],
    currentDay := some { datetime := (2019, 6, 3), contents := [] },
    currentGroup := none,
    currentSession := some { id_ := "1A".data, title := "Speech".data,
                             type := "paper".data, location := [], chair := [],
                             start := [], end_ := [],
                             items := [{ id_ := "7".data, type := "paper".data,
                                         topic := none, title := some [],
                                         authors := some [], track := some "main".data,
                                         location := none, start := some none,
                                         end_ := some none }] },
    currentItem := some { id_ := "502".data, type := "paper".data, topic := none,
                          title := some [], authors := some [],
                          track := some "main".data, location := none,
                          start := some none, end_ := some none },
    posterTopic := none }

/-- An order file containing a line that matches no category. -/
def strayLines : List (List Char) :=
  ["* Monday, June 3, 2019", "Registration desk opens"].map String.data

/-- The agenda parsed from `strayLines`: one empty Monday; the stray line
left no trace and raised no error. -/
def strayParsed : List (Option Day) :=
  [some { datetime := (2019, 6, 3), contents := [] }]

/-- An order file with an item line directly under a plenary session. -/
def plenaryItemLines : List (List Char) :=
  ["* Monday, June 3, 2019", "! 9:00--10:00 Welcome", "101 #"].map String.data

/-- The agenda parsed from `plenaryItemLines`: the plenary session is
committed with no items and no error was raised; item `101` vanished. -/
def plenaryItemParsed : List (Option Day) :=
  [some { datetime := (2019, 6, 3),
          contents := [DayContent.session
            { id_ := [], title := "Welcome".data, type := "plenary".data,
              location := [], chair := [], start := "9:00".data,
              end_ := "10:00".data, items := [] }] }]

/-- An order file whose item line has the undeclared track suffix
`-foobar` under a paper session. -/
def foobarLines : List (List Char) :=
  ["* Monday, June 3, 2019", "= Session 1A: Speech",
   "45-foobar 15:30--15:45 #"].map String.data

/-- The agenda parsed from `foobarLines`: the item is accepted and its
track is the arbitrary suffix `foobar`. -/
def foobarParsed : List (Option Day) :=
  [some { datetime := (2019, 6, 3),
          contents := [DayContent.session
            { id_ := "1A".data, title := "Speech".data, type := "paper".data,
              location := [], chair := [], start := [], end_ := [],
              items := [{ id_ := "45".data, type := "paper".data, topic := none,
                          title := some [], authors := some [],
                          track := some "foobar".data, location := none,
                          start := some (some "15:30".data),
                          end_ := some (some "15:45".data) }] }] }]

/-- An order file in which a session group is open when a break line
arrives, exercising the commit path of a break session past an open
group. -/
def groupBreakLines : List (List Char) :=
  ["* Monday, June 3, 2019", "+ 9:00--10:30 Parallel", "= Session 1A: Speech",
   "! 10:30--11:00 Coffee Break"].map String.data

/-- A `ScheduleMetadata` with one known order id `100` mapped to the
anthology id `N19-1001`. -/
def smallSM : ScheduleMetadata :=
  { order_id_to_metadata :=
      [("100".data, { title := "A Title".data, authors := "Jane Doe".data,
                      abstract := [], anthology_url := "http".data })],
    order_id_to_anthology_id := [("100".data, "N19-1001".data)] }

/-- A builder state with an open day and no open session. -/
def noSessionState : ParseState :=
  ⟨[], some ⟨(2019, 6, 3), []⟩, none, none, none, none⟩

/-- A builder state whose open session is a plenary session. -/
def plenaryOpenState : ParseState :=
  { agendaDays := [], currentDay := some ⟨(2019, 6, 3), []⟩, currentGroup := none,
    currentSession := some { id_ := [], title := "Welcome".data,
                             type := "plenary".data, location := [], chair := [],
                             start := "9:00".data, end_ := "10:00".data, items := [] },
    currentItem := none, posterTopic := none }

/-- A builder state with an open poster session, an open poster item `501`
and the pending topic `T`. -/
def posterPendingState : ParseState :=
  { agendaDays := [], currentDay := some ⟨(2019, 6, 3), []⟩, currentGroup := none,
    currentSession := some { id_ := "1A".data, title := "Posters".data,
                             type := "poster".data, location := [], chair := [],
                             start := [], end_ := [], items := [] },
    currentItem := some { id_ := "501".data, type := "poster".data,
                          topic := some (some []), title := some [],
                          authors := some [], track := some "main".data,
                          location := none, start := none, end_ := none },
    posterTopic := some (some "T".data) }

/-! ### Theorems -/

/-- C7: on the very metadata string of the function's own docstring, the
value stored for `room` keeps the trailing space preceding the next `%`
key (the `[^%]+` group is not trimmed), while the docstring and the
specification promise the trimmed value `FOO`; the final value of a
string is trimmed only because nothing follows it. -/
theorem C7_eval :
    pyDictGet (parse_metadata_into_dict "# %room FOO %chair1 BAR BAZ".data)
        "room".data [] = "FOO ".data ∧
      "FOO ".data ≠ "FOO".data ∧
      pyDictGet (parse_metadata_into_dict "# %room FOO %chair1 BAR BAZ".data)
        "chair1".data [] = "BAR BAZ".data := by
  refine ⟨by decide, by decide, by decide⟩

/-- C10: for an anthology paper entry with exactly one author tag, the
author string produced by `_parse_anthology_xml` is `" and "` followed by
the author's name, because the `'{} and {}'` join is applied whenever the
author list is non-empty and the comma-join of the empty front part is
empty. -/
theorem C10_thm (first last title abstract url : List Char) :
    (paperMetadataTuple title abstract url [(first, last)]).authors =
      " and ".data ++ (first ++ ' ' :: last) := by
  simp [paperMetadataTuple, authorsFromTags, pyJoin]

/-- C1 counterexample: in `topicLastLines` the topic `T` is pending when
the only poster after the marker, item `501`, is created, yet the parsed
agenda leaves `501` with the empty topic of its creation — the pending
topic was not assigned at the item's creation time and, no further item
line arriving, never at all. -/
theorem C1_counterexample :
    Agenda.fromfile topicLastLines = .ok topicLastParsed ∧
      (itemsOfDays topicLastParsed).map Item.topic = [some (some [])] ∧
      [some (some ([] : List Char))] ≠ [some (some "T".data)] := by
  refine ⟨by decide, by decide, by decide⟩

/-- C2 counterexample: processing the presentation-item line `502 #` from
a state with an open session and an open item does append the open item to
the open session, contradicting the `no` in the Commit Item column of the
transition table's Presentation item row. -/
theorem C2_counterexample :
    Agenda.processStripped openItemState "502 #".data = .ok openItemStateAfter ∧
      Option.map Session.items openItemStateAfter.currentSession =
        some [{ id_ := "7".data, type := "paper".data, topic := none,
                title := some [], authors := some [], track := some "main".data,
                location := none, start := some none, end_ := some none }] ∧
      Option.map Session.items openItemStateAfter.currentSession ≠ some [] := by
  refine ⟨by decide, by decide, by decide⟩

/-- C3 counterexample: the line `Registration desk opens` is non-empty
after trimming and matches no category, yet parsing `strayLines` succeeds
(the line is silently dropped) instead of failing with
`UnrecognizedLineError`. -/
theorem C3_counterexample :
    Agenda.fromfile strayLines = .ok strayParsed ∧
      Agenda.fromfile strayLines ≠ .error .unrecognizedLineError := by
  refine ⟨by decide, by decide⟩

/-- C4 counterexample: a tutorial item whose id `28` lacks the `-tutorial`
suffix makes `Item.fromstring` fail with `ValueError` (the two-name tuple
unpacking of `split('-')`), not with `MalformedItemError`. -/
theorem C4_counterexample :
    Item.fromstring ⟨"28".data, none, []⟩ "tutorial".data = .error .valueError ∧
      (Except.error PyError.valueError : Except PyError (Option Item)) ≠
        .error .malformedItemError := by
  refine ⟨by decide, by decide⟩

/-- C5 counterexample: an item line directly under a plenary session does
not fail with `InvalidNestingError`; parsing `plenaryItemLines` succeeds
and the item simply vanishes (the plenary session is committed with no
items). -/
theorem C5_counterexample :
    Agenda.fromfile plenaryItemLines = .ok plenaryItemParsed ∧
      Agenda.fromfile plenaryItemLines ≠ .error .invalidNestingError := by
  refine ⟨by decide, by decide⟩

/-- C8 counterexample: the item line `45-foobar 15:30--15:45 #` is
accepted by the parser although `foobar` is none of the four declared
tracks, and the resulting item's track is the arbitrary suffix `foobar`. -/
theorem C8_counterexample :
    Agenda.fromfile foobarLines = .ok foobarParsed ∧
      (itemsOfDays foobarParsed).map Item.track = [some "foobar".data] ∧
      ¬ ("foobar".data ∈ ["main".data, "demos".data, "srw".data,
            "industry".data, "tutorial".data]) := by
  refine ⟨by decide, by decide, by decide⟩

/-- C9 counterexample: looking up the id `999`, unknown both as an order
id and through the anthology mapping, fails with `KeyError` — the code
never raises a `NotFoundError`. -/
theorem C9_counterexample :
    ScheduleMetadata.getitem smallSM "999".data = .error .keyError ∧
      (Except.error PyError.keyError : Except PyError MetadataTuple) ≠
        .error .notFoundError := by
  refine ⟨by decide, by decide⟩

/-- C3 (amended): a line that is non-empty after trimming, starts with
none of the five sigils and does not match the item pattern is silently
skipped — the loop iteration returns the state unchanged and raises no
error. -/
theorem C3_thm (st : ParseState) (l line : List Char)
    (hstrip : pyStrip l = line) (hne : ¬ line = [])
    (h1 : startsWith "* ".data line = false) (h2 : startsWith "! ".data line = false)
    (h3 : startsWith "+ ".data line = false) (h4 : startsWith "= ".data line = false)
    (h5 : startsWith "@ ".data line = false) (h6 : itemMatch line = none) :
    Agenda.processLine st l = .ok st := by
  unfold Agenda.processLine Agenda.processStripped
  simp only [hstrip, hne, h1, h2, h3, h4, h5, h6, if_false, Bool.false_eq_true,
    ite_false]

/-- Witness for C3: the stray line of `strayLines` leaves the initial
state untouched. -/
theorem C3_witness :
    Agenda.processLine Agenda.initState "Registration desk opens".data =
      .ok Agenda.initState :=
  C3_thm Agenda.initState "Registration desk opens".data
    "Registration desk opens".data (by decide) (by decide) (by decide) (by decide)
    (by decide) (by decide) (by decide) (by decide)

/-- Under a plenary or break containing session, `Item.fromstring` falls
through every branch and returns Python `None`. -/
theorem fromstring_plenary_or_break (m : ItemMatchT) (t : List Char)
    (h : t = "plenary".data ∨ t = "break".data) :
    Item.fromstring m t = .ok none := by
  have hposter : ¬ t = "poster".data := by rcases h with h | h <;> subst h <;> decide
  have hpaper : ¬ (t = "paper".data ∨ t = "best_paper".data) := by
    rcases h with h | h <;> subst h <;> decide
  have htut : ¬ t = "tutorial".data := by rcases h with h | h <;> subst h <;> decide
  unfold Item.fromstring
  rw [if_neg hposter, if_neg hpaper, if_neg htut]

/-- C5 (amended): when a presentation-item line arrives (with no item
pending), an absent open session makes the loop fail with
`AttributeError` (from `current_session.type` on `None`), while an open
plenary or break session makes `Item.fromstring` return `None`, so the
item is silently discarded and the state is unchanged — in neither case
is an `InvalidNestingError` raised, but no item is ever placed under a
plenary or break session. -/
theorem C5_thm (st : ParseState) (line : List Char) (m : ItemMatchT)
    (h1 : startsWith "* ".data line = false) (h2 : startsWith "! ".data line = false)
    (h3 : startsWith "+ ".data line = false) (h4 : startsWith "= ".data line = false)
    (h5 : startsWith "@ ".data line = false) (h6 : itemMatch line = some m)
    (hitem : st.currentItem = none) :
    (st.currentSession = none →
      Agenda.processStripped st line = .error .attributeError) ∧
    (∀ s, st.currentSession = some s →
      s.type = "plenary".data ∨ s.type = "break".data →
      Agenda.processStripped st line = .ok st) := by
  obtain ⟨days, day, group, session, item, topic⟩ := st
  simp only at hitem
  subst hitem
  constructor
  · intro hs
    simp only at hs
    subst hs
    unfold Agenda.processStripped Agenda.update_states Agenda.commit_group Agenda.commit_day
    simp only [h1, h2, h3, h4, h5, h6, if_false, Bool.false_eq_true, ite_false]
  · intro s hs hpb
    simp only at hs
    subst hs
    unfold Agenda.processStripped Agenda.update_states Agenda.commit_group Agenda.commit_day
    simp only [h1, h2, h3, h4, h5, h6, if_false, Bool.false_eq_true, ite_false,
      fromstring_plenary_or_break m s.type hpb]

/-- Witness for C5: at the item line `101 #`, the state without an open
session fails with `AttributeError`, and the state with an open plenary
session is returned unchanged. -/
theorem C5_witness :
    Agenda.processStripped noSessionState "101 #".data = .error .attributeError ∧
      Agenda.processStripped plenaryOpenState "101 #".data = .ok plenaryOpenState :=
  ⟨(C5_thm noSessionState "101 #".data ⟨"101".data, none, []⟩ (by decide) (by decide)
      (by decide) (by decide) (by decide) (by decide) rfl).1 rfl,
   (C5_thm plenaryOpenState "101 #".data ⟨"101".data, none, []⟩ (by decide) (by decide)
      (by decide) (by decide) (by decide) (by decide) rfl).2 _ rfl (Or.inl rfl)⟩

/-- C1 (amended): a pending poster topic is written to the *open* Item —
the first poster parsed after the marker — at the moment the *next*
presentation-item line is processed (not at the poster's own creation),
after which the pending slot is reset to Python `None`; the topic-carrying
poster is flushed into the open session by the same transition. -/
theorem C1_thm (st st' : ParseState) (line : List Char) (m : ItemMatchT)
    (it : Item) (v : Option (List Char))
    (h1 : startsWith "* ".data line = false) (h2 : startsWith "! ".data line = false)
    (h3 : startsWith "+ ".data line = false) (h4 : startsWith "= ".data line = false)
    (h5 : startsWith "@ ".data line = false) (h6 : itemMatch line = some m)
    (hitem : st.currentItem = some it) (hty : it.type = "poster".data)
    (htopic : st.posterTopic = some v)
    (hok : Agenda.processStripped st line = .ok st') :
    st'.posterTopic = some none ∧
      Option.map Session.items st'.currentSession =
        Option.map (fun s => s.items ++ [{ it with topic := some v }])
          st.currentSession := by
  obtain ⟨days, day, group, session, item, topic⟩ := st
  simp only at hitem htopic
  subst hitem; subst htopic
  unfold Agenda.processStripped Agenda.update_states Agenda.commit_group Agenda.commit_day at hok
  simp only [h1, h2, h3, h4, h5, h6, if_false, Bool.false_eq_true, ite_false, hty,
    if_true, ite_true] at hok
  cases session with
  | none => exact absurd hok (by simp)
  | some s =>
    simp only at hok
    cases hfs : Item.fromstring m s.type with
    | error e => rw [hfs] at hok; exact absurd hok (by simp)
    | ok newIt? =>
      rw [hfs] at hok
      simp only [Except.ok.injEq] at hok
      subst hok
      exact ⟨rfl, by simp [hty]⟩

/-- Witness for C1: from `posterPendingState`, processing the item line
`502 #` resets the pending slot to `None` and flushes poster `501`, now
carrying topic `T`, into the open session. -/
theorem C1_witness :
    (exceptStateD (Agenda.processStripped posterPendingState "502 #".data)).posterTopic
        = some none ∧
      Option.map Session.items
          (exceptStateD
            (Agenda.processStripped posterPendingState "502 #".data)).currentSession =
        Option.map
          (fun s => s.items ++
            [{ id_ := "501".data, type := "poster".data, topic := some (some "T".data),
               title := some [], authors := some [], track := some "main".data,
               location := none, start := none, end_ := none }])
          posterPendingState.currentSession :=
  C1_thm posterPendingState _ "502 #".data ⟨"502".data, none, []⟩
    { id_ := "501".data, type := "poster".data, topic := some (some []),
      title := some [], authors := some [], track := some "main".data,
      location := none, start := none, end_ := none }
    (some "T".data) (by decide) (by decide) (by decide) (by decide) (by decide)
    (by decide) rfl rfl rfl (by decide)

/-- C2 (amended): the transition for a presentation-item line commits no
Session, SessionGroup or Day — the agenda's day list, the open day and the
open group are returned unchanged — but it *does* commit the open Item:
the open session gains exactly one item when an item was open (the
`update_states` helper flushes the current item unconditionally; only the
session/group/day commits are behind the save flags, which the item
transition passes as `False`). -/
theorem C2_thm (st st' : ParseState) (line : List Char) (m : ItemMatchT)
    (h1 : startsWith "* ".data line = false) (h2 : startsWith "! ".data line = false)
    (h3 : startsWith "+ ".data line = false) (h4 : startsWith "= ".data line = false)
    (h5 : startsWith "@ ".data line = false) (h6 : itemMatch line = some m)
    (hok : Agenda.processStripped st line = .ok st') :
    st'.agendaDays = st.agendaDays ∧ st'.currentDay = st.currentDay ∧
      st'.currentGroup = st.currentGroup ∧
      Option.map (fun s => s.items.length) st'.currentSession =
        Option.map
          (fun s => s.items.length +
            (match st.currentItem with | some _ => 1 | none => 0))
          st.currentSession := by
  obtain ⟨days, day, group, session, item, topic⟩ := st
  unfold Agenda.processStripped Agenda.update_states Agenda.commit_group Agenda.commit_day at hok
  simp only [h1, h2, h3, h4, h5, h6, if_false, Bool.false_eq_true, ite_false] at hok
  cases item with
  | none =>
    cases session with
    | none => simp only at hok; exact absurd hok (by simp)
    | some s =>
      simp only at hok
      cases hfs : Item.fromstring m s.type with
      | error e => rw [hfs] at hok; exact absurd hok (by simp)
      | ok newIt? =>
        rw [hfs] at hok
        simp only [Except.ok.injEq] at hok
        subst hok
        exact ⟨rfl, rfl, rfl, by simp⟩
  | some it =>
    simp only at hok
    by_cases hty : it.type = "poster".data
    · rw [hty] at hok
      rw [if_pos (by decide)] at hok
      cases topic with
      | none => simp only at hok; exact absurd hok (by simp)
      | some v =>
        simp only at hok
        cases session with
        | none => exact absurd hok (by simp)
        | some s =>
          simp only at hok
          cases hfs : Item.fromstring m s.type with
          | error e => rw [hfs] at hok; exact absurd hok (by simp)
          | ok newIt? =>
            rw [hfs] at hok
            simp only [Except.ok.injEq] at hok
            subst hok
            exact ⟨rfl, rfl, rfl, by simp⟩
    · rw [if_neg (by simpa using hty)] at hok
      cases session with
      | none => simp only at hok; exact absurd hok (by simp)
      | some s =>
        simp only at hok
        cases hfs : Item.fromstring m s.type with
        | error e => rw [hfs] at hok; exact absurd hok (by simp)
        | ok newIt? =>
          rw [hfs] at hok
          simp only [Except.ok.injEq] at hok
          subst hok
          exact ⟨rfl, rfl, rfl, by simp⟩

/-- Witness for C2: from `openItemState`, processing the item line
`502 #` leaves the agenda day list, open day and open group unchanged and
grows the open session by exactly the one open item. -/
theorem C2_witness :
    openItemStateAfter.agendaDays = openItemState.agendaDays ∧
      openItemStateAfter.currentDay = openItemState.currentDay ∧
      openItemStateAfter.currentGroup = openItemState.currentGroup ∧
      Option.map (fun s => s.items.length) openItemStateAfter.currentSession =
        Option.map
          (fun s => s.items.length +
            (match openItemState.currentItem with | some _ => 1 | none => 0))
          openItemState.currentSession :=
  C2_thm openItemState openItemStateAfter "502 #".data ⟨"502".data, none, []⟩
    (by decide) (by decide) (by decide) (by decide) (by decide) (by decide)
    (by decide)

/-- C4 (amended): under a tutorial session, an item id without exactly
one `-` makes `Item.fromstring` fail with `ValueError` (the two-name
unpacking of `split('-')`), a suffix other than exactly `tutorial` makes
it fail with `AssertionError` (the `assert id_type == 'tutorial'`), and
with the suffix `-tutorial` the numeric prefix becomes the id and the
location is the stripped `room` value of the metadata blob — the code
never raises a `MalformedItemError`. -/
theorem C4_thm (m : ItemMatchT) :
    ((pySplit '-' m.item_id).length ≠ 2 →
      Item.fromstring m "tutorial".data = .error .valueError) ∧
    (∀ a b, pySplit '-' m.item_id = [a, b] → ¬ b = "tutorial".data →
      Item.fromstring m "tutorial".data = .error .assertionError) ∧
    (∀ a, pySplit '-' m.item_id = [a, "tutorial".data] →
      Item.fromstring m "tutorial".data =
        .ok (some { id_ := a, type := "tutorial".data, topic := none,
                    title := some [], authors := some [], track := some "main".data,
                    location := some (pyStrip (pyDictGet
                      (parse_metadata_into_dict m.metadata) "room".data [])),
                    start := some (m.times.map (fun t => t.1)),
                    end_ := some (m.times.map (fun t => t.2)) })) := by
  simp only [Item.fromstring]
  rw [if_neg (by decide), if_neg (by decide), if_true]
  refine ⟨?_, ?_, ?_⟩
  · intro hlen
    rcases hsp : pySplit '-' m.item_id with _ | ⟨a, _ | ⟨b, _ | ⟨c, t⟩⟩⟩ <;> simp_all
  · intro a b hsp hne
    rw [hsp]
    simp only
    rw [if_neg hne]
  · intro a hsp
    rw [hsp]
    simp

/-- Witness for C4: the three tutorial-item shapes `28`, `28-srw` and
`28-tutorial 9:00--12:30  # %room Greenway DE/FG`. -/
theorem C4_witness :
    Item.fromstring ⟨"28".data, none, []⟩ "tutorial".data = .error .valueError ∧
      Item.fromstring ⟨"28-srw".data, none, []⟩ "tutorial".data =
        .error .assertionError ∧
      Item.fromstring ⟨"28-tutorial".data, some ("9:00".data, "12:30".data),
          " %room Greenway DE/FG".data⟩ "tutorial".data =
        .ok (some { id_ := "28".data, type := "tutorial".data, topic := none,
                    title := some [], authors := some [], track := some "main".data,
                    location := some "Greenway DE/FG".data,
                    start := some (some "9:00".data),
                    end_ := some (some "12:30".data) }) :=
  ⟨(C4_thm ⟨"28".data, none, []⟩).1 (by decide),
   (C4_thm ⟨"28-srw".data, none, []⟩).2.1 "28".data "srw".data (by decide) (by decide),
   ((C4_thm ⟨"28-tutorial".data, some ("9:00".data, "12:30".data),
       " %room Greenway DE/FG".data⟩).2.2 "28".data (by decide)).trans (by decide)⟩

/-- C8 (amended): the item pattern accepts *any* non-empty lowercase
suffix after the dash, not just the four declared tracks; under a paper or
best-paper session, `Item.fromstring` stores whatever suffix the id
carries as the item's track (and `main` when there is no dash). -/
theorem C8_thm (m : ItemMatchT) (cst : List Char)
    (hc : cst = "paper".data ∨ cst = "best_paper".data) :
    (m.item_id.contains '-' = false →
      Item.fromstring m cst =
        .ok (some { id_ := m.item_id, type := "paper".data, topic := none,
                    title := some [], authors := some [], track := some "main".data,
                    location := none, start := some (m.times.map (fun t => t.1)),
                    end_ := some (m.times.map (fun t => t.2)) })) ∧
    (∀ a b, m.item_id.contains '-' = true → pySplit '-' m.item_id = [a, b] →
      Item.fromstring m cst =
        .ok (some { id_ := a, type := "paper".data, topic := none, title := some [],
                    authors := some [], track := some b, location := none,
                    start := some (m.times.map (fun t => t.1)),
                    end_ := some (m.times.map (fun t => t.2)) })) := by
  have hposter : ¬ cst = "poster".data := by rcases hc with h | h <;> subst h <;> decide
  simp only [Item.fromstring]
  rw [if_neg hposter, if_pos hc]
  constructor
  · intro hnc
    rw [hnc]
    simp
  · intro a b hc2 hsp
    rw [hc2, if_pos rfl, hsp]

/-- Witness for C8: the undashed id `45` gets track `main`; the id
`45-foobar` gets the arbitrary track `foobar`. -/
theorem C8_witness :
    Item.fromstring ⟨"45".data, none, []⟩ "paper".data =
        .ok (some { id_ := "45".data, type := "paper".data, topic := none,
                    title := some [], authors := some [], track := some "main".data,
                    location := none, start := some none, end_ := some none }) ∧
      Item.fromstring ⟨"45-foobar".data, some ("15:30".data, "15:45".data), []⟩
          "paper".data =
        .ok (some { id_ := "45".data, type := "paper".data, topic := none,
                    title := some [], authors := some [], track := some "foobar".data,
                    location := none, start := some (some "15:30".data),
                    end_ := some (some "15:45".data) }) :=
  ⟨(C8_thm ⟨"45".data, none, []⟩ "paper".data (Or.inl rfl)).1 (by decide),
   (C8_thm ⟨"45-foobar".data, some ("15:30".data, "15:45".data), []⟩ "paper".data
       (Or.inl rfl)).2 "45".data "foobar".data (by decide) (by decide)⟩

/-- C9 (amended): `ScheduleMetadata.__getitem__` translates an id that
starts with `N`, `W` or `S` through the reversed anthology mapping and
then looks the (possibly translated) order id up in the metadata dict;
every known id returns its `MetadataTuple`, and every id unknown in the
dict consulted fails with `KeyError` — the code defines no
`NotFoundError`. -/
theorem C9_thm (sm : ScheduleMetadata) (c : Char) (cs : List Char) :
    (¬ (c = 'N' ∨ c = 'W' ∨ c = 'S') →
      pyDictLookup sm.order_id_to_metadata (c :: cs) = none →
      ScheduleMetadata.getitem sm (c :: cs) = .error .keyError) ∧
    (¬ (c = 'N' ∨ c = 'W' ∨ c = 'S') → ∀ v,
      pyDictLookup sm.order_id_to_metadata (c :: cs) = some v →
      ScheduleMetadata.getitem sm (c :: cs) = .ok v) ∧
    ((c = 'N' ∨ c = 'W' ∨ c = 'S') →
      pyDictLookup sm.anthology_id_to_order_id (c :: cs) = none →
      ScheduleMetadata.getitem sm (c :: cs) = .error .keyError) ∧
    ((c = 'N' ∨ c = 'W' ∨ c = 'S') → ∀ oid v,
      pyDictLookup sm.anthology_id_to_order_id (c :: cs) = some oid →
      pyDictLookup sm.order_id_to_metadata oid = some v →
      ScheduleMetadata.getitem sm (c :: cs) = .ok v) := by
  unfold ScheduleMetadata.getitem
  refine ⟨?_, ?_, ?_, ?_⟩
  · intro hnc hmiss
    simp only
    rw [if_neg hnc]
    simp only [hmiss]
  · intro hnc v hhit
    simp only
    rw [if_neg hnc]
    simp only [hhit]
  · intro hc hmiss
    simp only
    rw [if_pos hc]
    simp only [hmiss]
  · intro hc oid v hmap hhit
    simp only
    rw [if_pos hc]
    simp only [hmap, hhit]

/-- Witness for C9: in `smallSM`, the order id `100` and the anthology id
`N19-1001` both resolve to the stored tuple, while the unknown anthology
id `N19-9999` fails with `KeyError`. -/
theorem C9_witness :
    ScheduleMetadata.getitem smallSM "100".data =
        .ok { title := "A Title".data, authors := "Jane Doe".data, abstract := [],
              anthology_url := "http".data } ∧
      ScheduleMetadata.getitem smallSM "N19-1001".data =
        .ok { title := "A Title".data, authors := "Jane Doe".data, abstract := [],
              anthology_url := "http".data } ∧
      ScheduleMetadata.getitem smallSM "N19-9999".data = .error .keyError :=
  ⟨(C9_thm smallSM '1' "00".data).2.1 (by decide) _ (by decide),
   (C9_thm smallSM 'N' "19-1001".data).2.2.2 (by decide) "100".data _ (by decide)
     (by decide),
   (C9_thm smallSM 'N' "19-9999".data).2.2.1 (by decide) (by decide)⟩

/-- Freeness is preserved by the `save_group`/`save_day` commit blocks:
appending a free group to a day and appending a free day to the agenda
keep every group plenary/break-free. -/
theorem commit_group_free (days : List (Option Day)) (day2 : Option Day)
    (group2 : Option SessionGroup) (cs : Option Session) (item : Option Item)
    (sg sd : Bool) (days' : List (Option Day)) (day' : Option Day)
    (group' : Option SessionGroup) (session' : Option Session) (item' : Option Item)
    (h : Agenda.commit_group days day2 group2 cs item sg sd =
      .ok (days', day', group', session', item'))
    (hdays : days.all optDayFree = true) (hday : optDayFree day2 = true)
    (hgroup : optGroupFree group2 = true) :
    days'.all optDayFree = true ∧ optDayFree day' = true ∧
      optGroupFree group' = true := by
  unfold Agenda.commit_group Agenda.commit_day at h
  repeat' split at h
  all_goals
    cases h <;>
      simp_all [optDayFree, dayFree, groupFree, optGroupFree, contentFree,
        List.all_append, List.forall_mem_append, List.forall_mem_cons]

/-- Freeness (no plenary/break session inside any group) is preserved by
one call to `update_states`: a session is appended to the open group only
under the guard that its type is neither plenary nor break; appending a
session to a day touches no group; the commit blocks preserve freeness by
the previous lemma. -/
theorem update_states_free (days : List (Option Day)) (day : Option Day)
    (group : Option SessionGroup) (session : Option Session) (item : Option Item)
    (ss sg sd : Bool) (days' : List (Option Day)) (day' : Option Day)
    (group' : Option SessionGroup) (session' : Option Session) (item' : Option Item)
    (h : Agenda.update_states days day group session item ss sg sd =
      .ok (days', day', group', session', item'))
    (hdays : days.all optDayFree = true) (hday : optDayFree day = true)
    (hgroup : optGroupFree group = true) :
    days'.all optDayFree = true ∧ optDayFree day' = true ∧
      optGroupFree group' = true := by
  unfold Agenda.update_states at h
  simp only at h
  repeat' split at h
  all_goals first
    | cases h
    | (refine commit_group_free _ _ _ _ _ _ _ _ _ _ _ _ h hdays ?_ ?_ <;>
        simp_all [optDayFree, dayFree, groupFree, optGroupFree, contentFree,
          Session.isPB, List.all_append, List.forall_mem_append,
          List.forall_mem_cons, beq_iff_eq])

/-- A day fresh from `Day.fromstring` has no contents, hence is free. -/
theorem day_fromstring_free (s : List Char) (d : Day)
    (h : Day.fromstring s = .ok d) : dayFree d = true := by
  unfold Day.fromstring at h
  simp only at h
  split at h
  all_goals cases h <;> simp [dayFree]

/-- A group fresh from `SessionGroup.fromstring` has no sessions, hence is
free. -/
theorem group_fromstring_free (s : List Char) (g : SessionGroup)
    (h : SessionGroup.fromstring s = .ok g) : groupFree g = true := by
  unfold SessionGroup.fromstring at h
  simp only at h
  split at h
  all_goals cases h <;> simp [groupFree]

/-- Freeness is preserved by every transition of the builder: each branch
commits entities only through `update_states`, opens new (empty) days and
groups through the `fromstring` constructors, or clears slots. -/
theorem processStripped_free (st st' : ParseState) (line : List Char)
    (h : Agenda.processStripped st line = .ok st') (hf : stateFree st = true) :
    stateFree st' = true := by
  have hsplit := hf
  rw [stateFree, Bool.and_eq_true, Bool.and_eq_true] at hsplit
  obtain ⟨⟨hdays, hday⟩, hgroup⟩ := hsplit
  unfold Agenda.processStripped at h
  split at h
  · -- day header
    cases hcd : st.currentDay with
    | none =>
      rw [hcd] at h
      simp only at h
      cases hdf : Day.fromstring line with
      | error e => rw [hdf] at h; cases h
      | ok d =>
        rw [hdf] at h
        cases h
        rw [stateFree]
        simp only [Bool.and_eq_true]
        exact ⟨⟨hdays, by simp [optDayFree, day_fromstring_free line d hdf]⟩,
          by simp [optGroupFree]⟩
    | some d0 =>
      rw [hcd] at h
      simp only at h
      cases hupd : Agenda.update_states st.agendaDays (some d0) st.currentGroup
          st.currentSession st.currentItem true true true with
      | error e => rw [hupd] at h; cases h
      | ok tup =>
        obtain ⟨days', day', group', session', item'⟩ := tup
        rw [hupd] at h
        simp only at h
        have hfree := update_states_free _ _ _ _ _ _ _ _ _ _ _ _ _ hupd hdays
          (hcd ▸ hday) hgroup
        cases hdf : Day.fromstring line with
        | error e => rw [hdf] at h; cases h
        | ok d =>
          rw [hdf] at h
          cases h
          rw [stateFree]
          simp only [Bool.and_eq_true]
          exact ⟨⟨hfree.1, by simp [optDayFree, day_fromstring_free line d hdf]⟩,
            by simp [optGroupFree]⟩
  split at h
  · -- plenary/break header
    cases hupd : Agenda.update_states st.agendaDays st.currentDay st.currentGroup
        st.currentSession st.currentItem true true false with
    | error e => rw [hupd] at h; cases h
    | ok tup =>
      obtain ⟨days', day', group', session', item'⟩ := tup
      rw [hupd] at h
      simp only at h
      have hfree := update_states_free _ _ _ _ _ _ _ _ _ _ _ _ _ hupd hdays hday hgroup
      cases hsf : Session.fromstring line with
      | error e => rw [hsf] at h; cases h
      | ok s? =>
        rw [hsf] at h
        cases h
        rw [stateFree]
        simp only [Bool.and_eq_true]
        exact ⟨⟨hfree.1, hfree.2.1⟩, by simp [optGroupFree]⟩
  split at h
  · -- session-group header
    cases hupd : Agenda.update_states st.agendaDays st.currentDay st.currentGroup
        st.currentSession st.currentItem true true false with
    | error e => rw [hupd] at h; cases h
    | ok tup =>
      obtain ⟨days', day', group', session', item'⟩ := tup
      rw [hupd] at h
      simp only at h
      have hfree := update_states_free _ _ _ _ _ _ _ _ _ _ _ _ _ hupd hdays hday hgroup
      cases hgf : SessionGroup.fromstring line with
      | error e => rw [hgf] at h; cases h
      | ok g =>
        rw [hgf] at h
        cases h
        rw [stateFree]
        simp only [Bool.and_eq_true]
        exact ⟨⟨hfree.1, hfree.2.1⟩,
          by simp [optGroupFree, group_fromstring_free line g hgf]⟩
  split at h
  · -- session header
    cases hupd : Agenda.update_states st.agendaDays st.currentDay st.currentGroup
        st.currentSession st.currentItem true false false with
    | error e => rw [hupd] at h; cases h
    | ok tup =>
      obtain ⟨days', day', group', session', item'⟩ := tup
      rw [hupd] at h
      simp only at h
      have hfree := update_states_free _ _ _ _ _ _ _ _ _ _ _ _ _ hupd hdays hday hgroup
      cases hsf : Session.fromstring line with
      | error e => rw [hsf] at h; cases h
      | ok s? =>
        rw [hsf] at h
        cases h
        rw [stateFree]
        simp only [Bool.and_eq_true]
        exact ⟨⟨hfree.1, hfree.2.1⟩, hfree.2.2⟩
  split at h
  · -- poster-topic marker
    cases hupd : Agenda.update_states st.agendaDays st.currentDay st.currentGroup
        st.currentSession st.currentItem false false false with
    | error e => rw [hupd] at h; cases h
    | ok tup =>
      obtain ⟨days', day', group', session', item'⟩ := tup
      rw [hupd] at h
      cases h
      have hfree := update_states_free _ _ _ _ _ _ _ _ _ _ _ _ _ hupd hdays hday hgroup
      rw [stateFree]
      simp only [Bool.and_eq_true]
      exact ⟨⟨hfree.1, hfree.2.1⟩, hfree.2.2⟩
  -- presentation item or unrecognized line
  split at h
  · -- unrecognized: state unchanged
    cases h
    exact hf
  · -- item line
    rename_i m hm
    cases hci : st.currentItem with
    | none =>
      rw [hci] at h
      simp only at h
      cases hupd : Agenda.update_states st.agendaDays st.currentDay st.currentGroup
          st.currentSession none false false false with
      | error e => rw [hupd] at h; cases h
      | ok tup =>
        obtain ⟨days', day', group', session', item2⟩ := tup
        rw [hupd] at h
        simp only at h
        have hfree := update_states_free _ _ _ _ _ _ _ _ _ _ _ _ _ hupd hdays hday hgroup
        cases session' with
        | none => cases h
        | some s =>
          simp only at h
          cases hif : Item.fromstring m s.type with
          | error e => rw [hif] at h; cases h
          | ok newIt? =>
            rw [hif] at h
            cases h
            rw [stateFree]
            simp only [Bool.and_eq_true]
            exact ⟨⟨hfree.1, hfree.2.1⟩, hfree.2.2⟩
    | some it =>
      rw [hci] at h
      try simp only at h
      split at h
      · cases h
      · rename_i item' topic' heq
        split at heq
        · -- open poster item: the pending-topic slot is read
          split at heq
          · cases heq
          · rename_i v heqtp
            cases heq
            cases hupd : Agenda.update_states st.agendaDays st.currentDay
                st.currentGroup st.currentSession
                (some { it with topic := some v }) false false false with
            | error e => rw [hupd] at h; cases h
            | ok tup =>
              obtain ⟨days', day', group', session', item2⟩ := tup
              rw [hupd] at h
              simp only at h
              have hfree := update_states_free _ _ _ _ _ _ _ _ _ _ _ _ _ hupd hdays
                hday hgroup
              cases session' with
              | none => cases h
              | some s =>
                simp only at h
                cases hif : Item.fromstring m s.type with
                | error e => rw [hif] at h; cases h
                | ok newIt? =>
                  rw [hif] at h
                  cases h
                  rw [stateFree]
                  simp only [Bool.and_eq_true]
                  exact ⟨⟨hfree.1, hfree.2.1⟩, hfree.2.2⟩
        · -- open non-poster item
          cases heq
          cases hupd : Agenda.update_states st.agendaDays st.currentDay
              st.currentGroup st.currentSession (some it) false false false with
          | error e => rw [hupd] at h; cases h
          | ok tup =>
            obtain ⟨days', day', group', session', item2⟩ := tup
            rw [hupd] at h
            simp only at h
            have hfree := update_states_free _ _ _ _ _ _ _ _ _ _ _ _ _ hupd hdays
              hday hgroup
            cases session' with
            | none => cases h
            | some s =>
              simp only at h
              cases hif : Item.fromstring m s.type with
              | error e => rw [hif] at h; cases h
              | ok newIt? =>
                rw [hif] at h
                cases h
                rw [stateFree]
                simp only [Bool.and_eq_true]
                exact ⟨⟨hfree.1, hfree.2.1⟩, hfree.2.2⟩

/-- Freeness propagates through a whole line sequence. -/
theorem processLines_free (lines : List (List Char)) (st' : ParseState) :
    ∀ st : ParseState, Agenda.processLines st lines = .ok st' →
      stateFree st = true → stateFree st' = true := by
  induction lines with
  | nil =>
    intro st h hf
    unfold Agenda.processLines at h
    cases h
    exact hf
  | cons l ls ih =>
    intro st h hf
    unfold Agenda.processLines at h
    cases hpl : Agenda.processLine st l with
    | error e => rw [hpl] at h; cases h
    | ok st1 =>
      rw [hpl] at h
      have h1 : stateFree st1 = true := by
        unfold Agenda.processLine at hpl
        simp only at hpl
        split at hpl
        · cases hpl; exact hf
        · exact processStripped_free _ _ _ hpl hf
      exact ih st1 h h1

/-- C6: in every agenda produced by parsing, no session of type plenary
or break is a child of a SessionGroup (every group of every committed day
is plenary/break-free): whenever `update_states` commits a plenary/break
session it appends it directly to the open day, even if a group is open. -/
theorem C6_thm (lines : List (List Char)) (days : List (Option Day))
    (h : Agenda.fromfile lines = .ok days) :
    days.all optDayFree = true := by
  unfold Agenda.fromfile at h
  cases hpl : Agenda.processLines Agenda.initState lines with
  | error e => rw [hpl] at h; cases h
  | ok st =>
    rw [hpl] at h
    simp only at h
    have hst : stateFree st = true := processLines_free lines st Agenda.initState hpl (by decide)
    rw [stateFree, Bool.and_eq_true, Bool.and_eq_true] at hst
    obtain ⟨⟨hdays, hday⟩, hgroup⟩ := hst
    cases hupd : Agenda.update_states st.agendaDays st.currentDay st.currentGroup
        st.currentSession st.currentItem true true true with
    | error e => rw [hupd] at h; cases h
    | ok tup =>
      obtain ⟨days', day', group', session', item'⟩ := tup
      rw [hupd] at h
      cases h
      exact (update_states_free _ _ _ _ _ _ _ _ _ _ _ _ _ hupd hdays hday hgroup).1

/-- Witness for C6: `groupBreakLines` opens a session group, fills it
with a paper session, and then hits a break line while the group is still
open; the parsed agenda has no plenary/break session inside any group. -/
theorem C6_witness :
    (exceptDaysD (Agenda.fromfile groupBreakLines)).all optDayFree = true :=
  C6_thm groupBreakLines (exceptDaysD (Agenda.fromfile groupBreakLines)) (by decide)

end Naacl
